import Mathlib

/-!
# Verification of the clipper screen-recorder core (src/main.py)

Shallow embedding of the capture/buffer/save pipeline of the repository:
the frame ring buffer (`collections.deque` with `maxlen`), the export
entry point `ScreenRecorder.save_clip`, the background writer
`ScreenRecorder._save_video` with its ffmpeg capability probe
`ScreenRecorder._check_ffmpeg`, the capture loop
`ScreenRecorder._record_loop`, the trim routine
`MainWindow.create_trimmed_video`, and the buffer reconfiguration handler
`MainWindow.on_duration_changed`.
-/

namespace Clipper

/-- Model of Python's `collections.deque(maxlen=m)`: a bounded FIFO list.
`maxlen` is fixed at construction; `items` holds the buffered elements in
insertion order (oldest first). -/
structure Deque (α : Type) where
  maxlen : Nat
  items : List α
  deriving Repr, DecidableEq

/-- `deque(maxlen=m)` freshly constructed: empty. -/
def Deque.empty (α : Type) (maxlen : Nat) : Deque α :=
  ⟨maxlen, []⟩

/-- `deque.append(x)`: appends on the right; when the length would exceed
`maxlen`, the oldest (leftmost) elements are discarded first, exactly as
CPython discards from the left on an over-capacity append. -/
def Deque.push {α : Type} (d : Deque α) (x : α) : Deque α :=
  let its := d.items ++ [x]
  ⟨d.maxlen, its.drop (its.length - d.maxlen)⟩

/-- Push a whole sequence of items, left to right. -/
def Deque.pushAll {α : Type} (d : Deque α) (xs : List α) : Deque α :=
  xs.foldl Deque.push d

theorem Deque.push_maxlen {α : Type} (d : Deque α) (x : α) :
    (d.push x).maxlen = d.maxlen := rfl

theorem Deque.push_items {α : Type} (d : Deque α) (x : α) :
    (d.push x).items = (d.items ++ [x]).drop ((d.items ++ [x]).length - d.maxlen) := rfl

/-- Invariant: a deque built by pushes never holds more than `maxlen` items. -/
theorem Deque.push_length_le {α : Type} (d : Deque α) (x : α)
    (h : d.items.length ≤ d.maxlen) : (d.push x).items.length ≤ d.maxlen := by
  simp only [Deque.push, List.length_drop, List.length_append, List.length_cons,
    List.length_nil]
  omega

/-- The suffix of the last (at most) `c` elements of a list. -/
def lastN {α : Type} (c : Nat) (l : List α) : List α :=
  l.drop (l.length - c)

theorem lastN_length_le {α : Type} (c : Nat) (l : List α) :
    (lastN c l).length ≤ c := by
  simp only [lastN, List.length_drop]
  omega

theorem lastN_of_length_le {α : Type} (c : Nat) (l : List α)
    (h : l.length ≤ c) : lastN c l = l := by
  simp [lastN, Nat.sub_eq_zero_of_le h]

/-- Taking the last `c` of a list, appending more, and taking the last `c`
again is the same as taking the last `c` of everything at once. -/
theorem lastN_append_lastN {α : Type} (c : Nat) (l l' : List α) :
    lastN c (lastN c l ++ l') = lastN c (l ++ l') := by
  unfold lastN
  rw [← List.drop_append_of_le_length (Nat.sub_le l.length c), List.drop_drop]
  congr 1
  simp only [List.length_append, List.length_drop]
  omega

theorem Deque.push_items_lastN {α : Type} (d : Deque α) (x : α) :
    (d.push x).items = lastN d.maxlen (d.items ++ [x]) := rfl

/-- Main characterisation of repeated pushes: starting from a deque whose
content respects the capacity, the result holds exactly the most recent
`maxlen` elements of everything ever pushed, in push order. -/
theorem Deque.pushAll_items {α : Type} (c : Nat) (xs : List α) :
    ∀ (i : List α), i.length ≤ c →
      (Deque.pushAll ⟨c, i⟩ xs).items = lastN c (i ++ xs) := by
  induction xs with
  | nil =>
    intro i hi
    simpa [Deque.pushAll] using (lastN_of_length_le c i hi).symm
  | cons x xs ih =>
    intro i hi
    have hstep : Deque.pushAll ⟨c, i⟩ (x :: xs)
        = Deque.pushAll ⟨c, lastN c (i ++ [x])⟩ xs := rfl
    rw [hstep, ih _ (lastN_length_le c (i ++ [x])), lastN_append_lastN]
    simp [List.append_assoc]

/-- `ScreenRecorder.__init__`: the frame buffer is a
`deque(maxlen=buffer_seconds * fps)` (src/main.py:280). -/
def frameBufferCapacity (buffer_seconds fps : Nat) : Nat :=
  buffer_seconds * fps

/-- Qt signals emitted by `RecorderSignals` / shown by `MainWindow`
(`clip_saved`, `status_update`, `error_occurred` / `show_error`). -/
inductive Signal where
  | clipSaved (path : String)
  | statusUpdate (msg : String)
  | errorOccurred (msg : String)
  deriving Repr, DecidableEq

/-- Result of a call to `ScreenRecorder.save_clip` (src/main.py:488-531):
which error notifications were emitted, the frame snapshot handed to the
background `_save_video` job (None when the call bailed out), whether a
background save job was spawned, and the value returned to the caller. -/
structure SaveClipResult (α : Type) where
  errors : List String
  framesExported : Option (List α)
  jobSpawned : Bool
  returnedPath : Option String
  deriving Repr, DecidableEq

/-- `ScreenRecorder.save_clip(duration_seconds)` (src/main.py:488-531).
`frame_buffer` is the current buffer contents in capture order;
`duration_seconds = none` models the Python default `None` (which falls
back to `self.buffer_seconds`); `timestamp` is the strftime-generated name
component. The frame snapshot `list(self.frame_buffer)[-frames_to_save:]`
is the suffix of the last `frames_to_save` elements. -/
def save_clip {α : Type} (fps buffer_seconds : Nat) (frame_buffer : List α)
    (duration_seconds : Option Nat) (timestamp : String) : SaveClipResult α :=
  if frame_buffer.isEmpty then
    { errors := ["No frames in buffer"], framesExported := none,
      jobSpawned := false, returnedPath := none }
  else
    let d := duration_seconds.getD buffer_seconds
    let frames_to_save := min (d * fps) frame_buffer.length
    if frames_to_save = 0 then
      { errors := ["Not enough frames"], framesExported := none,
        jobSpawned := false, returnedPath := none }
    else
      let frames_list := frame_buffer.drop (frame_buffer.length - frames_to_save)
      { errors := [], framesExported := some frames_list,
        jobSpawned := true,
        returnedPath := some ("clip_" ++ timestamp ++ ".mp4") }

/-- Environment seen by the background writer `_save_video`: whether
usable audio data was handed over, whether writing the temporary WAV
succeeds, whether the `ffmpeg` binary exists on the system, whether the
ffmpeg merge subprocess succeeds, and whether some step of the guarded
`try` block raises (e.g. the video writer fails). -/
structure SaveVideoEnv where
  audio_present : Bool
  audio_write_ok : Bool
  ffmpeg_on_path : Bool
  merge_ok : Bool
  encode_throws : Bool
  deriving Repr, DecidableEq

/-- Shape of the file finally placed at the output path. -/
inductive OutputKind where
  | muxed
  | videoOnly
  deriving Repr, DecidableEq

/-- Result of `_save_video` (src/main.py:533-612). -/
structure SaveVideoResult where
  output : Option OutputKind
  metadataWritten : Bool
  mergeAttempted : Bool
  signals : List Signal
  deriving Repr, DecidableEq

/-- `ScreenRecorder._check_ffmpeg` (src/main.py:614-627): runs
`ffmpeg -version`; returns True when the binary runs, False when the
spawn raises FileNotFoundError (binary absent). -/
def check_ffmpeg (env : SaveVideoEnv) : Bool :=
  env.ffmpeg_on_path

/-- `ScreenRecorder._save_video` (src/main.py:533-612): empty frame list
returns silently; otherwise frames are written to a temporary video file;
audio (when present and writable) plus an available ffmpeg leads to a
merge attempt whose failure falls back to moving the video-only temp file
into place; in every non-throwing path the sidecar metadata is written and
`clip_saved` + `status_update` are emitted. A raise anywhere in the outer
`try` emits a single `error_occurred` instead. -/
def save_video {α : Type} (frames_list : List α) (filename : String)
    (env : SaveVideoEnv) : SaveVideoResult :=
  if frames_list.isEmpty then
    { output := none, metadataWritten := false, mergeAttempted := false,
      signals := [] }
  else if env.encode_throws then
    { output := none, metadataWritten := false, mergeAttempted := false,
      signals := [Signal.errorOccurred "Error saving clip"] }
  else
    let has_audio := env.audio_present && env.audio_write_ok
    let doneSignals := [Signal.clipSaved filename,
                        Signal.statusUpdate ("Clip saved: " ++ filename)]
    if has_audio && check_ffmpeg env then
      if env.merge_ok then
        { output := some OutputKind.muxed, metadataWritten := true,
          mergeAttempted := true, signals := doneSignals }
      else
        { output := some OutputKind.videoOnly, metadataWritten := true,
          mergeAttempted := true, signals := doneSignals }
    else
      { output := some OutputKind.videoOnly, metadataWritten := true,
        mergeAttempted := false, signals := doneSignals }

/-- The full export flow for one request: `save_clip` returns its path to
the caller, and the spawned background job (when any) later produces its
own result. The pair is (value returned to the caller, async job result). -/
def save_clip_and_run {α : Type} (fps buffer_seconds : Nat)
    (frame_buffer : List α) (duration_seconds : Option Nat)
    (timestamp : String) (env : SaveVideoEnv) :
    Option String × Option SaveVideoResult :=
  let r := save_clip fps buffer_seconds frame_buffer duration_seconds timestamp
  match r.framesExported, r.returnedPath with
  | some frames, some path => (r.returnedPath, some (save_video frames path env))
  | _, _ => (r.returnedPath, none)

/-- One captured screenshot as seen by the record loop: an identifier for
the pixel payload and whether the frame is uniformly blank
(`frame.size == 0 or np.all(frame == 0)` in the source). -/
structure CapFrame where
  id : Nat
  blank : Bool
  deriving Repr, DecidableEq

/-- Outcome of one `self.sct.grab(monitor)` attempt: either a frame comes
back, or the capture raised an exception carrying a message. -/
inductive CaptureOutcome where
  | ok (frame : CapFrame)
  | exn (msg : String)
  deriving Repr, DecidableEq

/-- The macOS permission error emitted by `_record_loop`
(src/main.py:430-434). -/
def permissionDeniedMsg : String :=
  "Screen recording permission denied.\n\n" ++
  "Grant permission in System Settings:\n" ++
  "Privacy & Security → Screen Recording"

/-- The transient-capture error emitted by `_record_loop`
(src/main.py:457): `f"Recording error: {str(e)}"`. -/
def recordingErrorMsg (e : String) : String :=
  "Recording error: " ++ e

/-- `max_consecutive_errors` (src/main.py:415). -/
def max_consecutive_errors : Nat := 10

/-- Result of a run of `_record_loop`: the frames appended to the buffer
(in order), the signals emitted, and whether the loop faulted (set
`is_recording = False` and broke out) before its input was exhausted. -/
structure LoopResult where
  buffered : List Nat
  signals : List Signal
  faulted : Bool
  deriving Repr, DecidableEq

/-- Body of `ScreenRecorder._record_loop` (src/main.py:392-486), driven by
a finite schedule of capture outcomes (the schedule running out models
`stop_recording` clearing `is_recording`). `isDarwin` is
`platform.system() == "Darwin"`; `errs` is `consecutive_errors`. On
Darwin a blank frame increments the counter and, at the threshold, emits
the permission message and stops; off Darwin blank frames take the normal
success path. An exception increments the counter and, at the threshold,
emits the transient message and stops; below it the loop sleeps and
retries. Any successful append resets the counter. -/
def record_loop_go (isDarwin : Bool) (errs : Nat) (buf : List Nat)
    (sigs : List Signal) : List CaptureOutcome → LoopResult
  | [] => ⟨buf, sigs, false⟩
  | CaptureOutcome.ok f :: rest =>
    if isDarwin && f.blank then
      if errs + 1 ≥ max_consecutive_errors then
        ⟨buf, sigs ++ [Signal.errorOccurred permissionDeniedMsg], true⟩
      else
        record_loop_go isDarwin (errs + 1) buf sigs rest
    else
      record_loop_go isDarwin 0 (buf ++ [f.id]) sigs rest
  | CaptureOutcome.exn e :: rest =>
    if errs + 1 ≥ max_consecutive_errors then
      ⟨buf, sigs ++ [Signal.errorOccurred (recordingErrorMsg e)], true⟩
    else
      record_loop_go isDarwin (errs + 1) buf sigs rest

/-- A run of `_record_loop` from a fresh start (`consecutive_errors = 0`,
empty buffer, no signals yet). -/
def record_loop (isDarwin : Bool) (outcomes : List CaptureOutcome) : LoopResult :=
  record_loop_go isDarwin 0 [] [] outcomes

/-- Result of `MainWindow.create_trimmed_video` (src/main.py:1770-1828):
the frames written to the output, whether the sidecar metadata was
written, the status/error feedback shown, and the source frames as seen
after the operation (the routine opens the source with `cv2.VideoCapture`
and only ever calls `read`/`release` on it, so the source is returned
untouched). -/
structure TrimResult where
  written : List Nat
  metadataWritten : Bool
  signals : List Signal
  sourceAfter : Nat → Option Nat

/-- The sequential read loop of `create_trimmed_video`
(src/main.py:1802-1806): after seeking to `start`, read `count` frames
one by one, writing each; `if not ret: break` stops at the first failed
read. `source pos = none` models `cap.read()` returning `ret == False`
at position `pos`. -/
def trim_read_frames (source : Nat → Option Nat) (start : Nat) :
    Nat → List Nat
  | 0 => []
  | count + 1 =>
    match source start with
    | none => []
    | some f => f :: trim_read_frames source (start + 1) count

/-- `MainWindow.create_trimmed_video(source_path, start_frame, end_frame)`
(src/main.py:1770-1828): seeks to `start_frame`, copies frames
`range(start_frame, end_frame + 1)` until the first failed read, then
releases, writes the sidecar metadata and reports "Trimmed clip saved";
the `except` branch (show_error) is reached only by a raise, never by a
failed `cap.read()`. -/
def create_trimmed_video (source : Nat → Option Nat)
    (start_frame end_frame : Nat) : TrimResult :=
  let written := trim_read_frames source start_frame (end_frame + 1 - start_frame)
  { written := written, metadataWritten := true,
    signals := [Signal.statusUpdate "Trimmed clip saved"],
    sourceAfter := source }

/-- The recorder-facing state touched by `MainWindow.on_duration_changed`:
whether the capture loop is active, the configured buffer length in
seconds, and the frame deque itself. -/
structure AppState where
  is_recording : Bool
  buffer_seconds : Nat
  frame_buffer : Deque Nat
  deriving Repr, DecidableEq

/-- Primitive effects a `MainWindow` handler can perform on the recorder. -/
inductive AppAction where
  | setBufferSeconds (n : Nat)
  | replaceBuffer (maxlen : Nat)
  | stopRecording
  | startRecording
  | statusUpdate (msg : String)
  deriving Repr, DecidableEq

/-- Semantics of each primitive effect on the recorder state. -/
def applyAction (s : AppState) : AppAction → AppState
  | AppAction.setBufferSeconds n => { s with buffer_seconds := n }
  | AppAction.replaceBuffer m => { s with frame_buffer := Deque.empty Nat m }
  | AppAction.stopRecording => { s with is_recording := false }
  | AppAction.startRecording => { s with is_recording := true }
  | AppAction.statusUpdate _ => s

/-- The effect trace of `MainWindow.on_duration_changed` for an accepted
duration (src/main.py:1399-1403 for the custom branch,
src/main.py:1412-1415 for the dropdown branch; both perform the same three
effects): assign `recorder.buffer_seconds`, assign a fresh
`deque(maxlen=duration * recorder.fps)`, and show a status message.
No recording stop or restart appears anywhere in the handler. -/
def on_duration_changed_actions (fps duration : Nat) : List AppAction :=
  [AppAction.setBufferSeconds duration,
   AppAction.replaceBuffer (duration * fps),
   AppAction.statusUpdate ("Buffer set to " ++ toString duration ++ " seconds")]

/-- Running `on_duration_changed` over a state. -/
def on_duration_changed (fps : Nat) (s : AppState) (duration : Nat) : AppState :=
  (on_duration_changed_actions fps duration).foldl applyAction s

/-- Every state passed through while `on_duration_changed` runs (the start
state, each intermediate state, and the final state). -/
def on_duration_changed_trace (fps : Nat) (s : AppState) (duration : Nat) :
    List AppState :=
  (on_duration_changed_actions fps duration).scanl applyAction s

/-! ## Claim theorems -/

/-- C1: For every sequence of frame pushes whose length exceeds the
buffer's capacity (`buffer_seconds * fps`), the frame buffer retains
exactly the most recent capacity frames, in push order; in particular,
with the 900-frame capacity of a 30 s / 30 fps recorder, pushing frames
numbered 1..1000 leaves the buffer holding exactly frames 101..1000 in
order. -/
theorem C1_fifo_eviction (buffer_seconds fps : Nat) (xs : List Nat)
    (h : frameBufferCapacity buffer_seconds fps < xs.length) :
    (Deque.pushAll (Deque.empty Nat (frameBufferCapacity buffer_seconds fps)) xs).items
      = xs.drop (xs.length - frameBufferCapacity buffer_seconds fps)
    ∧ (Deque.pushAll (Deque.empty Nat (frameBufferCapacity 30 30))
        (List.range' 1 1000)).items = List.range' 101 900 := by
  constructor
  · have h2 := Deque.pushAll_items (frameBufferCapacity buffer_seconds fps) xs []
      (by simp)
    simpa [Deque.empty, lastN] using h2
  · have h2 := Deque.pushAll_items (frameBufferCapacity 30 30) (List.range' 1 1000)
      [] (by simp)
    simp only [List.nil_append] at h2
    have he : Deque.empty Nat (frameBufferCapacity 30 30)
        = (⟨frameBufferCapacity 30 30, []⟩ : Deque Nat) := rfl
    rw [he, h2]
    unfold lastN frameBufferCapacity
    have happ : List.range' 1 100 ++ List.range' 101 900 = List.range' 1 1000 := by
      simpa using List.range'_append 1 100 900 1
    rw [← happ]
    simp only [List.length_append, List.length_range']
    norm_num

/-- Witness for C1: pushing 7 frames into a 6-frame buffer
(2 s at 3 fps) keeps the last 6. -/
theorem C1_fifo_eviction_witness :
    (Deque.pushAll (Deque.empty Nat (frameBufferCapacity 2 3))
        [1, 2, 3, 4, 5, 6, 7]).items = [2, 3, 4, 5, 6, 7] :=
  ((C1_fifo_eviction 2 3 [1, 2, 3, 4, 5, 6, 7] (by decide)).1).trans (by decide)

set_option maxRecDepth 4000 in
/-- C2: With a non-empty buffer and a positive computed frame count,
`save_clip` snapshots exactly `min(duration * fps, buffered)` frames, and
they are exactly the most recent ones in capture order; requesting more
than is buffered yields the full buffer with no error; in particular
requesting 10 s against 150 buffered frames at 30 fps exports exactly 150
frames. -/
theorem C2_export_frame_count (fps buffer_seconds d : Nat) (buf : List Nat)
    (ts : String) (hne : buf ≠ []) (hpos : 0 < d * fps) :
    (save_clip fps buffer_seconds buf (some d) ts).framesExported
      = some (buf.drop (buf.length - min (d * fps) buf.length))
    ∧ ((save_clip fps buffer_seconds buf (some d) ts).framesExported.map
        List.length) = some (min (d * fps) buf.length)
    ∧ (buf.length ≤ d * fps →
        (save_clip fps buffer_seconds buf (some d) ts).framesExported = some buf)
    ∧ (save_clip fps buffer_seconds buf (some d) ts).errors = []
    ∧ ((save_clip 30 30 (List.range 150) (some 10) "t").framesExported.map
        List.length) = some 150 := by
  have hbe : buf.isEmpty = false := by
    simpa [List.isEmpty_iff] using hne
  have hlen : 0 < buf.length := List.length_pos.mpr hne
  have hmin : ¬ (min (d * fps) buf.length = 0) := by omega
  refine ⟨?_, ?_, ?_, ?_, ?_⟩
  · simp [save_clip, hbe, hmin]
  · have harith : buf.length - (buf.length - min (d * fps) buf.length)
        = min (d * fps) buf.length := Nat.sub_sub_self (Nat.min_le_right _ _)
    simp [save_clip, hbe, hmin, harith]
  · intro hle
    have hm : min (d * fps) buf.length = buf.length := Nat.min_eq_right hle
    simp [save_clip, hbe, hmin, hm, hne]
  · simp [save_clip, hbe, hmin]
  · decide

/-- Witness for C2: the spec scenario itself — 150 buffered frames,
10 s requested at 30 fps, exactly 150 frames exported. -/
theorem C2_export_frame_count_witness :
    ((save_clip 30 30 (List.range 150) (some 10) "t").framesExported.map
      List.length) = some 150 :=
  (C2_export_frame_count 30 30 10 (List.range 150) "t" (by decide)
    (by decide)).2.2.2.2

/-- C3: With an empty buffer, or with requested duration 0 (computed frame
count zero), `save_clip` emits an error notification, spawns no save job
(so no file is produced), and returns no path. -/
theorem C3_insufficient_data (fps buffer_seconds d : Nat) (buf : List Nat)
    (ts : String) :
    (buf = [] →
      save_clip fps buffer_seconds buf (some d) ts
        = { errors := ["No frames in buffer"], framesExported := none,
            jobSpawned := false, returnedPath := none })
    ∧ (d = 0 →
      save_clip fps buffer_seconds buf (some d) ts
        = if buf.isEmpty then
            { errors := ["No frames in buffer"], framesExported := none,
              jobSpawned := false, returnedPath := none }
          else
            { errors := ["Not enough frames"], framesExported := none,
              jobSpawned := false, returnedPath := none }) := by
  constructor
  · intro hb
    subst hb
    simp [save_clip]
  · intro hd
    subst hd
    by_cases hb : buf.isEmpty
    · simp [save_clip, hb]
    · simp [save_clip, hb]

/-- Witness for C3: both branches at a concrete input — empty buffer, and
duration 0 with a non-empty buffer. -/
theorem C3_insufficient_data_witness :
    save_clip 30 30 ([] : List Nat) (some 10) "t"
      = { errors := ["No frames in buffer"], framesExported := none,
          jobSpawned := false, returnedPath := none } :=
  (C3_insufficient_data 30 30 10 [] "t").1 rfl

/-- C10: With a non-empty buffer and positive computed frame count,
`save_clip` spawns the background writer and returns the generated output
path to the caller; that return value is the same whatever the background
encode/write later does, and in particular an environment in which the
write throws still leaves the caller holding the path, the failure being
reported only through the asynchronous error notification. -/
theorem C10_return_independent_of_write (fps buffer_seconds d : Nat)
    (buf : List Nat) (ts : String) (env env' : SaveVideoEnv)
    (hne : buf ≠ []) (hpos : 0 < d * fps) :
    (save_clip_and_run fps buffer_seconds buf (some d) ts env).1
      = some ("clip_" ++ ts ++ ".mp4")
    ∧ (save_clip_and_run fps buffer_seconds buf (some d) ts env).1
      = (save_clip_and_run fps buffer_seconds buf (some d) ts env').1
    ∧ (save_clip fps buffer_seconds buf (some d) ts).jobSpawned = true
    ∧ ((save_clip_and_run fps buffer_seconds buf (some d) ts
          { audio_present := false, audio_write_ok := false,
            ffmpeg_on_path := false, merge_ok := false,
            encode_throws := true }).2
        = some { output := none, metadataWritten := false,
                 mergeAttempted := false,
                 signals := [Signal.errorOccurred "Error saving clip"] }) := by
  have hbe : buf.isEmpty = false := by
    simpa [List.isEmpty_iff] using hne
  have hlen : 0 < buf.length := List.length_pos.mpr hne
  have hmin : ¬ (min (d * fps) buf.length = 0) := by omega
  have hfne : (buf.drop (buf.length - min (d * fps) buf.length)).isEmpty = false := by
    have : (buf.drop (buf.length - min (d * fps) buf.length)).length
        = min (d * fps) buf.length := by
      simp only [List.length_drop]
      exact Nat.sub_sub_self (Nat.min_le_right _ _)
    rw [List.isEmpty_eq_false_iff_exists_mem]
    rcases List.exists_mem_of_length_pos (l := buf.drop (buf.length - min (d * fps) buf.length)) (by omega) with ⟨a, ha⟩
    exact ⟨a, ha⟩
  refine ⟨?_, ?_, ?_, ?_⟩
  · simp [save_clip_and_run, save_clip, hbe, hmin]
  · simp [save_clip_and_run, save_clip, hbe, hmin]
  · simp [save_clip, hbe, hmin]
  · simp [save_clip_and_run, save_clip, hbe, hmin, save_video, hfne]

/-- Witness for C10 at a concrete input: one buffered frame, 1 s at 1 fps,
an environment whose write throws; the caller still gets the path. -/
theorem C10_return_independent_of_write_witness :
    (save_clip_and_run 1 1 [7] (some 1) "t"
        { audio_present := false, audio_write_ok := false,
          ffmpeg_on_path := false, merge_ok := false,
          encode_throws := true }).1 = some ("clip_" ++ "t" ++ ".mp4") :=
  (C10_return_independent_of_write 1 1 1 [7] "t"
      { audio_present := false, audio_write_ok := false,
        ffmpeg_on_path := false, merge_ok := false, encode_throws := true }
      { audio_present := false, audio_write_ok := false,
        ffmpeg_on_path := false, merge_ok := false, encode_throws := true }
      (by decide) (by decide)).1

/-- C8: Exporting with audio present but ffmpeg absent: the capability
probe reports the absence, no merge is attempted, the video-only file is
moved into place as the final output, the sidecar metadata is written, and
the `clip_saved` / `status_update` notifications (and no error) are
emitted. -/
theorem C8_ffmpeg_absent_fallback (frames : List Nat) (path : String)
    (env : SaveVideoEnv) (hne : frames ≠ [])
    (haudio : env.audio_present = true) (hwav : env.audio_write_ok = true)
    (hff : env.ffmpeg_on_path = false) (hok : env.encode_throws = false) :
    check_ffmpeg env = false
    ∧ save_video frames path env
      = { output := some OutputKind.videoOnly, metadataWritten := true,
          mergeAttempted := false,
          signals := [Signal.clipSaved path,
                      Signal.statusUpdate ("Clip saved: " ++ path)] } := by
  have hbe : frames.isEmpty = false := by
    simpa [List.isEmpty_iff] using hne
  constructor
  · simp [check_ffmpeg, hff]
  · simp [save_video, check_ffmpeg, hbe, haudio, hwav, hff, hok]

/-- Witness for C8: a single frame, audio captured, ffmpeg missing. -/
theorem C8_ffmpeg_absent_fallback_witness :
    save_video [1] "p"
        { audio_present := true, audio_write_ok := true,
          ffmpeg_on_path := false, merge_ok := false, encode_throws := false }
      = { output := some OutputKind.videoOnly, metadataWritten := true,
          mergeAttempted := false,
          signals := [Signal.clipSaved "p",
                      Signal.statusUpdate ("Clip saved: " ++ "p")] } :=
  (C8_ffmpeg_absent_fallback [1] "p"
      { audio_present := true, audio_write_ok := true,
        ffmpeg_on_path := false, merge_ok := false, encode_throws := false }
      (by decide) rfl rfl rfl rfl).2

/-- C6: In the capture loop, a failure below the threshold increments the
consecutive-error counter and retries; a successful capture resets the
counter to zero (appending the frame); the failure that reaches the
threshold of 10 emits the fatal error notification and stops the loop;
and a run facing 10 consecutive failures stops right there, ignoring
whatever capture schedule would have followed. -/
theorem C6_capture_error_policy (isDarwin : Bool) (errs : Nat)
    (buf : List Nat) (sigs : List Signal) (rest : List CaptureOutcome)
    (e : String) (f : CapFrame)
    (hbelow : errs + 1 < max_consecutive_errors) (hnb : f.blank = false) :
    record_loop_go isDarwin errs buf sigs (CaptureOutcome.exn e :: rest)
      = record_loop_go isDarwin (errs + 1) buf sigs rest
    ∧ record_loop_go isDarwin errs buf sigs (CaptureOutcome.ok f :: rest)
      = record_loop_go isDarwin 0 (buf ++ [f.id]) sigs rest
    ∧ record_loop_go isDarwin 9 buf sigs (CaptureOutcome.exn e :: rest)
      = ⟨buf, sigs ++ [Signal.errorOccurred (recordingErrorMsg e)], true⟩
    ∧ record_loop isDarwin (List.replicate 10 (CaptureOutcome.exn e) ++ rest)
      = ⟨[], [Signal.errorOccurred (recordingErrorMsg e)], true⟩ := by
  refine ⟨?_, ?_, ?_, ?_⟩
  · simp only [record_loop_go]
    rw [if_neg (by omega)]
  · simp [record_loop_go, hnb]
  · simp [record_loop_go, max_consecutive_errors]
  · simp [record_loop, record_loop_go, List.replicate, max_consecutive_errors]

/-- Witness for C6: ten consecutive capture exceptions from a fresh loop
emit one fatal error and stop. -/
theorem C6_capture_error_policy_witness :
    record_loop false (List.replicate 10 (CaptureOutcome.exn "io") ++ [])
      = ⟨[], [Signal.errorOccurred (recordingErrorMsg "io")], true⟩ :=
  (C6_capture_error_policy false 0 [] [] [] "io" ⟨0, false⟩
      (by decide) rfl).2.2.2

/-- C7 counterexample: off macOS the loop never classifies blank frames.
A run in which every captured frame is uniformly blank appends all of
them to the buffer as ordinary frames, emits no notification at all, and
does not fault. -/
theorem C7_counterexample :
    (record_loop false (List.replicate 20 (CaptureOutcome.ok ⟨5, true⟩))).signals = []
    ∧ (record_loop false (List.replicate 20 (CaptureOutcome.ok ⟨5, true⟩))).faulted = false
    ∧ (record_loop false (List.replicate 20 (CaptureOutcome.ok ⟨5, true⟩))).buffered
      = List.replicate 20 5 := by
  decide

/-- C7 (amended): only on macOS is an all-blank capture classified as a
permission failure: ten consecutive blank frames make the loop emit the
permission-denied message — which differs from every transient capture
error message — and stop; on any other platform a blank frame takes the
ordinary success path and is buffered. -/
theorem C7_blank_frames_darwin (buf : List Nat) (sigs : List Signal)
    (rest : List CaptureOutcome) (fr : CapFrame) (m : String)
    (hb : fr.blank = true) :
    record_loop_go true 0 buf sigs
        (List.replicate 10 (CaptureOutcome.ok fr) ++ rest)
      = ⟨buf, sigs ++ [Signal.errorOccurred permissionDeniedMsg], true⟩
    ∧ permissionDeniedMsg ≠ recordingErrorMsg m
    ∧ (∀ g : CapFrame, record_loop_go false 0 buf sigs [CaptureOutcome.ok g]
        = ⟨buf ++ [g.id], sigs, false⟩) := by
  refine ⟨?_, ?_, ?_⟩
  · simp [record_loop_go, List.replicate, hb, max_consecutive_errors]
  · intro h
    have h2 := congrArg (fun s => s.data.head?) h
    simp [permissionDeniedMsg, recordingErrorMsg, String.append] at h2
  · intro g
    simp [record_loop_go]

/-- Witness for C7 (amended): ten blank frames on macOS from a fresh
loop. -/
theorem C7_blank_frames_darwin_witness :
    record_loop_go true 0 [] []
        (List.replicate 10 (CaptureOutcome.ok ⟨0, true⟩) ++ [])
      = ⟨[], [Signal.errorOccurred permissionDeniedMsg], true⟩ :=
  (C7_blank_frames_darwin [] [] [] ⟨0, true⟩ "x" rfl).1

/-- When every read in the window succeeds, the trim read loop copies the
whole window in order. -/
theorem trim_read_frames_all_ok (source : Nat → Option Nat) (f : Nat → Nat) :
    ∀ (n s : Nat), (∀ i, i < n → source (s + i) = some (f (s + i))) →
      trim_read_frames source s n = (List.range' s n).map f := by
  intro n
  induction n with
  | zero =>
    intro s _
    simp [trim_read_frames]
  | succ m ih =>
    intro s hgood
    have h0 : source s = some (f s) := by
      simpa using hgood 0 (Nat.succ_pos m)
    have hrest : ∀ i, i < m → source (s + 1 + i) = some (f (s + 1 + i)) := by
      intro i hi
      have heq : s + 1 + i = s + (i + 1) := by omega
      rw [heq]
      exact hgood (i + 1) (by omega)
    rw [List.range'_succ]
    simp [trim_read_frames, h0, ih (s + 1) hrest]

/-- When the first failed read happens at offset `k`, the trim read loop
returns exactly the `k` frames before it. -/
theorem trim_read_frames_truncated (source : Nat → Option Nat) (f : Nat → Nat) :
    ∀ (k n s : Nat), k < n →
      (∀ i, i < k → source (s + i) = some (f (s + i))) →
      source (s + k) = none →
      trim_read_frames source s n = (List.range' s k).map f := by
  intro k
  induction k with
  | zero =>
    intro n s hkn hgood hbad
    cases n with
    | zero => omega
    | succ m =>
      rw [Nat.add_zero] at hbad
      simp [trim_read_frames, hbad]
  | succ j ih =>
    intro n s hkn hgood hbad
    cases n with
    | zero => omega
    | succ m =>
      have h0 : source s = some (f s) := by
        simpa using hgood 0 (Nat.succ_pos j)
      have hrest : ∀ i, i < j → source (s + 1 + i) = some (f (s + 1 + i)) := by
        intro i hi
        have heq : s + 1 + i = s + (i + 1) := by omega
        rw [heq]
        exact hgood (i + 1) (by omega)
      have hbad' : source (s + 1 + j) = none := by
        have heq : s + 1 + j = s + (j + 1) := by omega
        rw [heq]
        exact hbad
      rw [List.range'_succ]
      simp [trim_read_frames, h0, ih m (s + 1) (by omega) hrest hbad']

/-- C4 counterexample: trimming frames [0, 2] of a source whose frame 1
cannot be read writes only frame 0 (a silently shorter output), still
writes the sidecar metadata, and reports the "Trimmed clip saved" status;
no error is surfaced to the caller. -/
theorem C4_counterexample :
    (create_trimmed_video (fun n => if n = 1 then none else some n) 0 2).written
      = [0]
    ∧ (create_trimmed_video (fun n => if n = 1 then none else some n) 0 2).metadataWritten
      = true
    ∧ (create_trimmed_video (fun n => if n = 1 then none else some n) 0 2).signals
      = [Signal.statusUpdate "Trimmed clip saved"] := by
  refine ⟨by decide, rfl, rfl⟩

/-- C4 (amended): when frame `s + k` is the first unreadable frame of the
requested range, the trim loop stops there and writes only the `k` frames
before it, then still writes the sidecar metadata and reports the success
status; no error notification is emitted to the caller. -/
theorem C4_trim_truncates_silently (source : Nat → Option Nat) (f : Nat → Nat)
    (s e k : Nat) (hk : s + k ≤ e)
    (hgood : ∀ i, i < k → source (s + i) = some (f (s + i)))
    (hbad : source (s + k) = none) :
    (create_trimmed_video source s e).written = (List.range' s k).map f
    ∧ (create_trimmed_video source s e).written.length = k
    ∧ (create_trimmed_video source s e).metadataWritten = true
    ∧ (create_trimmed_video source s e).signals
      = [Signal.statusUpdate "Trimmed clip saved"] := by
  have hmain := trim_read_frames_truncated source f k (e + 1 - s) s (by omega)
    hgood hbad
  refine ⟨?_, ?_, rfl, rfl⟩
  · simpa [create_trimmed_video] using hmain
  · simp [create_trimmed_video, hmain]

/-- Witness for C4 (amended): the concrete source with unreadable frame 1,
range [0, 2]. -/
theorem C4_trim_truncates_silently_witness :
    (create_trimmed_video (fun n => if n = 1 then none else some n) 0 2).written
      = (List.range' 0 1).map id :=
  (C4_trim_truncates_silently (fun n => if n = 1 then none else some n) id
      0 2 1 (by decide)
      (by intro i hi; have h0 : i = 0 := by omega
          subst h0; rfl)
      rfl).1

/-- C5: for a trim over `[s, e]` with `s < e < total` where every frame in
the range is readable, the output contains exactly `e - s + 1` frames,
taken from the source in order starting at `s`, and the source is left
unchanged. -/
theorem C5_trim_roundtrip (source : Nat → Option Nat) (f : Nat → Nat)
    (s e total : Nat) (hse : s < e) (htot : e < total)
    (hread : ∀ i, s ≤ i → i ≤ e → source i = some (f i)) :
    (create_trimmed_video source s e).written
      = (List.range' s (e - s + 1)).map f
    ∧ (create_trimmed_video source s e).written.length = e - s + 1
    ∧ (create_trimmed_video source s e).sourceAfter = source := by
  have hgood : ∀ i, i < e + 1 - s → source (s + i) = some (f (s + i)) := by
    intro i hi
    exact hread (s + i) (by omega) (by omega)
  have hmain := trim_read_frames_all_ok source f (e + 1 - s) s hgood
  have hn : e + 1 - s = e - s + 1 := by omega
  rw [hn] at hmain
  refine ⟨?_, ?_, rfl⟩
  · simpa [create_trimmed_video, hn] using hmain
  · simp [create_trimmed_video, hn, hmain]

/-- Witness for C5: trimming [0, 1] of a fully readable source yields two
frames. -/
theorem C5_trim_roundtrip_witness :
    (create_trimmed_video (fun n => some n) 0 1).written
      = (List.range' 0 (1 - 0 + 1)).map id :=
  (C5_trim_roundtrip (fun n => some n) id 0 1 3 (by decide) (by decide)
      (fun _ _ _ => rfl)).1

/-- C9 counterexample: with capture active (`is_recording = true`) and
frames buffered, changing the duration to 60 s replaces the frame buffer
with a fresh empty 1800-slot deque while `is_recording` stays true at
every point of the handler's execution; the handler performs no stop and
no restart of capture. -/
theorem C9_counterexample :
    AppAction.stopRecording ∉ on_duration_changed_actions 30 60
    ∧ AppAction.startRecording ∉ on_duration_changed_actions 30 60
    ∧ AppAction.replaceBuffer 1800 ∈ on_duration_changed_actions 30 60
    ∧ ((on_duration_changed_trace 30 ⟨true, 30, ⟨900, [1, 2, 3]⟩⟩ 60).map
        AppState.is_recording) = [true, true, true, true]
    ∧ (on_duration_changed 30 ⟨true, 30, ⟨900, [1, 2, 3]⟩⟩ 60).frame_buffer
      = Deque.empty Nat 1800 := by
  decide

/-- C9 (amended): reconfiguring the buffer duration performs no stop and
no restart: the handler leaves `is_recording` exactly as it was (a
running capture loop keeps running), sets `buffer_seconds` to the new
duration, and replaces the frame buffer with a freshly sized empty deque
— a live replacement rather than a stop-replace-resume cycle. -/
theorem C9_live_reconfigure (fps duration : Nat) (s : AppState) :
    (on_duration_changed fps s duration).is_recording = s.is_recording
    ∧ (on_duration_changed fps s duration).buffer_seconds = duration
    ∧ (on_duration_changed fps s duration).frame_buffer
      = Deque.empty Nat (duration * fps)
    ∧ AppAction.stopRecording ∉ on_duration_changed_actions fps duration
    ∧ AppAction.startRecording ∉ on_duration_changed_actions fps duration := by
  refine ⟨rfl, rfl, rfl, ?_, ?_⟩ <;> simp [on_duration_changed_actions]

end Clipper
